import Mathlib

/-!
# Verification of the airlane agent core

A shallow embedding of the conversation-state machine and agent-routing
protocol of the airlane repository:

* `src/services/agents/OnboardingAgent.ts`
* `src/services/agents/CodeGenerationAgent.ts`
* `src/services/agents/EditingAgent.ts`
* `src/app/api/airlane/route.ts`

TypeScript strings are modelled as `String` (or `List Char` where index
arithmetic of the parsers matters), JS objects with possibly-missing
string fields as structures over `Option String`, and the awaited
generate-then-parse step of each agent as an explicit `Option` parameter
(`none` models the thrown exception caught by the agent `catch` block).
Impure inputs (`Date.now()`, the random execution id) are threaded as
explicit parameters.
-/

namespace Airlane

/-- The five interview states of `ConversationContext.onboarding_state`
(`OnboardingAgent.ts`, type `ConversationContext`). -/
inductive OnboardingState where
  | GREETING
  | CORE_INFO
  | DEEP_DIVE
  | BRANDING
  | FINALIZING
deriving DecidableEq, Repr

/-- The `history` field: a list of `[speaker, message]` pairs. -/
abbrev History := List (String × String)

/-- The `collected_info` field: a string-keyed object, modelled as an association list. -/
abbrev Info := List (String × String)

/-- Model of `ConversationContext` (shared shape of the agent files; the
`onboarding_state` field is optional as in the shared contract, and the
object spreads `{...context, ...}` in the source preserve it). -/
structure ConversationContext where
  history : History
  collected_info : Info
  goal : Option String
  onboarding_state : Option OnboardingState
deriving DecidableEq, Repr

/-- Model of `AgentResponse.status`. -/
inductive Status where
  | AWAITING_INPUT
  | PROCESSING
  | COMPLETE
  | ERROR
deriving DecidableEq, Repr

/-- Model of `GeneratedCode`: the caller-supplied artifact `{html, css, js}` with all
three fields present as strings (the typed shape in `EditingAgent.ts` and
`route.ts`). -/
structure GeneratedCode where
  html : String
  css : String
  js : String
deriving DecidableEq, Repr

/-- The object produced by `JSON.parse` of a code-bearing model reply:
each of the three keys may be absent (`none`) or present as a string. -/
structure JsCodeObj where
  html : Option String
  css : Option String
  js : Option String
deriving DecidableEq, Repr

/-- The tagged `ui` payloads emitted by the agents (`{type, props}` objects
in the source). Only the variants the agents construct concretely carry
their exact props; model-supplied `ui` objects flow through untouched. -/
inductive Ui where
  | TEXT_INPUT (title placeholder emoji buttonText : String)
  | TEXT_AREA_INPUT (title placeholder emoji : String)
  | BUTTON_GROUP (buttons : List (String × String))
  | MULTI_SELECT (title : String) (options : List (String × String))
  | COLOR_PICKER (title : String)
  | KEY_VALUE_DISPLAY (title : String) (items : List (String × String))
deriving DecidableEq, Repr

/-- The tagged `action` payloads (`REQUEST_USER_INPUT`, `DELEGATE`,
`GENERATION_COMPLETE` with the code payload). -/
inductive AgentAction where
  | REQUEST_USER_INPUT
  | DELEGATE
  | GENERATION_COMPLETE (payload : JsCodeObj)
deriving DecidableEq, Repr

/-- Model of `AgentResponse`. -/
structure AgentResponse where
  id : String
  status : Status
  speech : Option String
  ui : Option Ui
  action : Option AgentAction
  context : ConversationContext
deriving DecidableEq, Repr

/-- JS truthiness of a possibly-missing string value: `undefined`, `null`
and `""` are falsy, every other string is truthy. -/
def jsTruthyStr : Option String → Bool
  | none => false
  | some s => !s.isEmpty

/-- JS `x || d` for a possibly-missing string `x` and default `d`
(e.g. `brief.business_name || "N/A"`). -/
def jsOrDefault (v : Option String) (d : String) : String :=
  match v with
  | none => d
  | some s => if s.isEmpty then d else s

/-- The object spread `{...old, ...new}` on string-keyed records:
keys of `new` overwrite keys of `old`, fresh keys of `new` are appended. -/
def jsMerge (old new : Info) : Info :=
  old.map (fun kv =>
    match new.lookup kv.1 with
    | some v => (kv.1, v)
    | none => kv)
  ++ new.filter (fun kv => (old.lookup kv.1).isNone)

/-! ## Response parsers

`EditingAgent.parseLlmResponse` isolates the substring from the first
`{` to the last `}`; `OnboardingAgent.parseLlmResponse` and
`CodeGenerationAgent.parseLlmResponse` instead strip a leading
```json fence and a trailing ``` fence with two regex replaces.
Text is modelled as `List Char`. -/

/-- Index of the first character satisfying `p`
(models `String.prototype.indexOf` for a single character, with
`none` for the JS result `-1`). -/
def firstIdx (p : Char → Bool) : List Char → Option Nat
  | [] => none
  | c :: cs => if p c then some 0 else (firstIdx p cs).map (· + 1)

/-- Index of the last character satisfying `p`
(models `String.prototype.lastIndexOf` for a single character). -/
def lastIdx (p : Char → Bool) (s : List Char) : Option Nat :=
  (firstIdx p s.reverse).map (fun i => s.length - 1 - i)

/-- JS `String.prototype.substring(a, b)`: swaps its arguments when
`a > b` and clamps to the string length. -/
def jsSubstring (s : List Char) (a b : Nat) : List Char :=
  (s.take (max a b)).drop (min a b)

/-- Isolation step of `EditingAgent.parseLlmResponse`: take the substring
from the first `{` to the last `}` inclusive; `none` models the throw
when either bracket is missing (the subsequent `JSON.parse` is outside
this model and is applied to the returned text). -/
def editingIsolate (s : List Char) : Option (List Char) :=
  match firstIdx (· = '{') s, lastIdx (· = '}') s with
  | some jsonStart, some jsonEnd => some (jsSubstring s jsonStart (jsonEnd + 1))
  | _, _ => none

/-- The characters of the opening markdown fence literal (three backticks
followed by the word json) matched by the anchored opening regex of the
onboarding / code-generation parsers. -/
def fenceOpen : List Char := ['`', '`', '`', 'j', 's', 'o', 'n']

/-- The characters of the closing fence literal. -/
def fenceClose : List Char := ['`', '`', '`']

/-- The first regex replace of the onboarding / code-generation parsers:
strip one leading json markdown fence, with an optional trailing newline,
anchored at the start of the input. -/
def stripLeadingFence (s : List Char) : List Char :=
  if fenceOpen.isPrefixOf s then
    match s.drop fenceOpen.length with
    | '\n' :: rest => rest
    | rest => rest
  else s

/-- The second regex replace of those parsers: strip one trailing
three-backtick fence anchored at the very end of the input (a JS dollar
anchor without the m flag matches only at the end). -/
def stripTrailingFence (s : List Char) : List Char :=
  if fenceClose.isSuffixOf s then s.take (s.length - 3) else s

/-- The cleaning step shared verbatim by `OnboardingAgent.parseLlmResponse`
and `CodeGenerationAgent.parseLlmResponse`: the two regex replaces in
order (the result is what those parsers hand to `JSON.parse`). -/
def fenceClean (s : List Char) : List Char :=
  stripTrailingFence (stripLeadingFence s)

/-! ## Onboarding Agent -/

/-- The parsed model reply expected by the onboarding loop:
`{speech, ui, updated_data, next_state}`. -/
structure OnbLlmResponse where
  speech : String
  ui : Option Ui
  updated_data : Info
  next_state : OnboardingState
deriving DecidableEq, Repr

/-- The fixed turn-0 greeting of `OnboardingAgent.initiateConversation`. -/
def welcomeSpeech : String :=
  "Hello! I\x27m your personal AI web designer and creative partner. I\x27m so excited to learn about your project! To start, what is the name of your business or project?"

/-- The apology of the onboarding `catch` branch. -/
def onboardingApology : String :=
  "My apologies, I seem to have lost my train of thought. Could you please repeat that or try rephrasing?"

/-- The fixed finalization speech of
`OnboardingAgent.generateCompletionResponse`. -/
def onboardingFinalSpeech : String :=
  "Amazing! Thank you for sharing all of that. I feel like I really get what you\x27re building, and I have a clear vision for your project now. I\x27ll start designing and building your new landing page right away. This should just take a moment..."

/-- Model of `OnboardingAgent.initiateConversation` (`now` threads `Date.now()`). -/
def initiateConversation (now : Nat) : AgentResponse :=
  { id := "response-init-" ++ toString now
    status := .AWAITING_INPUT
    speech := some welcomeSpeech
    ui := some (.TEXT_INPUT "Your Business Name" "e.g., \"Galaxy Brew Coffee\"" "🚀" "Continue")
    action := some .REQUEST_USER_INPUT
    context :=
      { history := [("agent", welcomeSpeech)]
        collected_info := []
        goal := some "onboard_user"
        onboarding_state := some .GREETING } }

/-- Model of `OnboardingAgent.generateCompletionResponse`. -/
def generateCompletionResponse (now : Nat) (context : ConversationContext) : AgentResponse :=
  { id := "response-complete-" ++ toString now
    status := .PROCESSING
    speech := some onboardingFinalSpeech
    ui := some (.KEY_VALUE_DISPLAY "Brief Complete!"
      [("Project Name", jsOrDefault (context.collected_info.lookup "business_name") "N/A"),
       ("Status", "Generating your website...")])
    action := some .DELEGATE
    context :=
      { context with
        history := context.history ++ [("agent", onboardingFinalSpeech)]
        goal := some "generate_landing_page"
        onboarding_state := some .FINALIZING } }

/-- Model of `OnboardingAgent.execute`. `llm` is the outcome of the awaited
`generateContent` call followed by `parseLlmResponse`: `some` a parsed
reply, or `none` when either step throws (handled by the `catch`). -/
def onboardingExecute (now : Nat) (prompt : String)
    (context : Option ConversationContext) (llm : Option OnbLlmResponse) :
    AgentResponse :=
  match context with
  | none => initiateConversation now
  | some context =>
    match llm with
    | some llmResponse =>
      let updatedHistory : History := context.history ++ [("user", prompt)]
      let updatedContext : ConversationContext :=
        { context with
          history := updatedHistory ++ [("agent", llmResponse.speech)]
          collected_info := jsMerge context.collected_info llmResponse.updated_data
          onboarding_state := some llmResponse.next_state }
      if llmResponse.next_state = .FINALIZING then
        generateCompletionResponse now updatedContext
      else
        { id := "response-" ++ toString now
          status := .AWAITING_INPUT
          speech := some llmResponse.speech
          ui := llmResponse.ui
          action := some .REQUEST_USER_INPUT
          context := updatedContext }
    | none =>
      { id := "error-" ++ toString now
        status := .AWAITING_INPUT
        speech := some onboardingApology
        ui := none
        action := some .REQUEST_USER_INPUT
        context := context }

/-! ## Code Generation Agent -/

/-- The success speech of `CodeGenerationAgent.execute`. -/
def codeGenSuccessSpeech : String :=
  "Voila! I\x27ve designed and built a unique, modern landing page based on our conversation. Here is the live preview!"

/-- The failure speech of the code-generation `catch` branch. -/
def codeGenErrorSpeech : String :=
  "I\x27m so sorry, my creative circuits got tangled while building your site. Would you like to try generating it again?"

/-- The validity test at `CodeGenerationAgent.ts:67`:
`!generatedCode.html || !generatedCode.css || !generatedCode.js` throws,
so the artifact counts as valid exactly when all three fields are
JS-truthy (present AND non-empty). -/
def codeGenValid (g : JsCodeObj) : Bool :=
  jsTruthyStr g.html && jsTruthyStr g.css && jsTruthyStr g.js

/-- The ERROR response of the code-generation `catch` branch:
a single-button BUTTON_GROUP and `goal` reset to `"onboard_user"`. -/
def codeGenError (now : Nat) (context : ConversationContext) : AgentResponse :=
  { id := "error-codegen-" ++ toString now
    status := .ERROR
    speech := some codeGenErrorSpeech
    ui := some (.BUTTON_GROUP [("Retry Generation", "retry_generation")])
    action := none
    context := { context with goal := some "onboard_user" } }

/-- Model of `CodeGenerationAgent.execute`. `llm` is the outcome of
`generateContent` + `parseLlmResponse` (`none` = thrown); a parsed object
failing the truthiness check at line 67 throws into the same `catch`. -/
def codeGenExecute (now : Nat) (context : ConversationContext)
    (llm : Option JsCodeObj) : AgentResponse :=
  match llm with
  | some generatedCode =>
    if codeGenValid generatedCode then
      { id := "response-codegen-" ++ toString now
        status := .COMPLETE
        speech := some codeGenSuccessSpeech
        ui := some (.KEY_VALUE_DISPLAY "Generation Complete!"
          [("Project", jsOrDefault (context.collected_info.lookup "business_name") "N/A"),
           ("Style", jsOrDefault (context.collected_info.lookup "style_preference") "N/A"),
           ("Status", "Live Preview Ready")])
        action := some (.GENERATION_COMPLETE generatedCode)
        context := { context with goal := some "completed" } }
    else codeGenError now context
  | none => codeGenError now context

/-! ## Editing Agent -/

/-- The success speech of `EditingAgent.execute`. -/
def editingConfirmSpeech : String :=
  "Okay, I\x27ve applied that change. Take a look at the updated preview! What\x27s next?"

/-- The apology of the editing `catch` branch. -/
def editingApology : String :=
  "I seem to have run into a snag trying to make that edit. Could you try rephrasing your request?"

/-- The validity test at `EditingAgent.ts:75`: each of the three fields
must be present with string typeof (an empty string passes). -/
def editingValid (g : JsCodeObj) : Bool :=
  g.html.isSome && g.css.isSome && g.js.isSome

/-- The AWAITING_INPUT response of the editing `catch` branch: the failed
interaction is appended to history, `goal` untouched. -/
def editingError (executionId prompt : String) (context : ConversationContext) :
    AgentResponse :=
  { id := "error-" ++ executionId
    status := .AWAITING_INPUT
    speech := some editingApology
    ui := none
    action := none
    context :=
      { context with
        history := context.history ++ [("user", prompt), ("agent", editingApology)] } }

/-- Model of `EditingAgent.execute`. `executionId` threads the impure id,
`currentCode` is the caller-supplied artifact (used only to build the
prompt for the model), `llm` the generate-and-parse outcome. -/
def editingExecute (executionId prompt : String) (context : ConversationContext)
    (currentCode : GeneratedCode) (llm : Option JsCodeObj) : AgentResponse :=
  match llm with
  | some modifiedCode =>
    if editingValid modifiedCode then
      { id := "response-" ++ executionId
        status := .COMPLETE
        speech := some editingConfirmSpeech
        ui := none
        action := some (.GENERATION_COMPLETE modifiedCode)
        context :=
          { context with
            history := context.history
              ++ [("user", prompt), ("agent", editingConfirmSpeech)]
            goal := some "edit_code" } }
    else editingError executionId prompt context
  | none => editingError executionId prompt context

/-! ## Agent Router (`src/app/api/airlane/route.ts`) -/

/-- The throw sites caught by the route-level `catch`
(the only one reachable in this model is the missing-artifact
precondition at `route.ts:52`). -/
inductive RouteError where
  | missingArtifact
deriving DecidableEq, Repr

/-- The result of a `POST` turn: either the JSON-serialized agent
response, or the 500 internal-error payload built by the `catch`. -/
inductive RouterResult where
  | ok (response : AgentResponse)
  | internalError (error : RouteError)
deriving DecidableEq, Repr

/-- The `POST` router: switch on `context?.goal` with `edit_code` and
`generate_landing_page` cases and a default falling through to the
onboarding agent (matching `onboard_user`, `null`, `undefined` and any
unrecognized goal alike). -/
def route (now : Nat) (executionId prompt : String)
    (context : Option ConversationContext) (generatedCode : Option GeneratedCode)
    (onbLlm : Option OnbLlmResponse) (codeLlm editLlm : Option JsCodeObj) :
    RouterResult :=
  match context with
  | some c =>
    if c.goal = some "edit_code" then
      match generatedCode with
      | none => .internalError .missingArtifact
      | some gc => .ok (editingExecute executionId prompt c gc editLlm)
    else if c.goal = some "generate_landing_page" then
      .ok (codeGenExecute now c codeLlm)
    else
      .ok (onboardingExecute now prompt (some c) onbLlm)
  | none => .ok (onboardingExecute now prompt none onbLlm)


/-! ## Sample inputs used by closed evaluation theorems -/

/-- A sample mid-edit context (goal is edit_code). -/
def sampleCtx : ConversationContext :=
  { history := [("agent", welcomeSpeech), ("user", "Acme")]
    collected_info := [("business_name", "Acme")]
    goal := some "edit_code"
    onboarding_state := none }

/-- A sample completed-brief context (goal is generate_landing_page). -/
def sampleBrief : ConversationContext :=
  { history := [("agent", welcomeSpeech), ("user", "Acme")]
    collected_info := [("business_name", "Acme"), ("style_preference", "modern")]
    goal := some "generate_landing_page"
    onboarding_state := some .FINALIZING }

/-- A sample caller-supplied artifact. -/
def sampleCode : GeneratedCode :=
  { html := "<p>A</p>", css := "p \x7b color: red \x7d", js := "" }

/-- A model reply consisting of prose followed by a JSON object: the text
Sure! followed by an object with a single key. -/
def proseWrapped : List Char :=
  ['S', 'u', 'r', 'e', '!', ' ', '{', '"', 'a', '"', ':', '1', '}']

/-- The bare JSON object embedded in `proseWrapped`. -/
def bareJson : List Char := ['{', '"', 'a', '"', ':', '1', '}']

/-! ## Helper lemmas for the parser -/

/-- Prepending characters on which `p` fails shifts the first matching
index by the length of the prefix. -/
theorem firstIdx_append (p : Char → Bool) (pre t : List Char)
    (h : ∀ c ∈ pre, p c = false) :
    firstIdx p (pre ++ t) = (firstIdx p t).map (fun i => i + pre.length) := by
  induction pre with
  | nil => cases ht : firstIdx p t <;> simp [ht]
  | cons a pre ih =>
    have ha : p a = false := h a (by simp)
    have h2 := ih (fun c hc => h c (by simp [hc]))
    cases ht : firstIdx p t with
    | none => simp [firstIdx, ha, h2, ht]
    | some i =>
      simp [firstIdx, ha, h2, ht]
      omega

/-- Unfolding of `editingIsolate` when both brackets are found. -/
theorem editingIsolate_eq_of_found (s : List Char) (a b : Nat)
    (h1 : firstIdx (· = '{') s = some a) (h2 : lastIdx (· = '}') s = some b) :
    editingIsolate s = some (jsSubstring s a (b + 1)) := by
  unfold editingIsolate
  rw [h1, h2]

/-! ## Claims -/

/-- Claim C1 (code_bug evaluation): a parsed model reply whose html key is
a non-empty string and whose css and js keys are present as empty strings
is rejected by the truthiness check at `CodeGenerationAgent.ts:67`: the
agent returns the ERROR response with the goal reset to onboard_user,
not a COMPLETE response, contradicting the presence-as-string validity
the spec requires. -/
theorem codegen_rejects_empty_string_fields :
    (codeGenExecute 0 sampleBrief (some ⟨some "<div/>", some "", some ""⟩)).status = .ERROR ∧
    (codeGenExecute 0 sampleBrief (some ⟨some "<div/>", some "", some ""⟩)).status ≠ .COMPLETE ∧
    (codeGenExecute 0 sampleBrief (some ⟨some "<div/>", some "", some ""⟩)).context.goal
      = some "onboard_user" := by
  decide

/-- Claim C2 (counterexample): the claim says every agent parser isolates
the substring from the first opening brace to the last closing brace; but
on a reply with leading prose the onboarding / code-generation cleaning
step passes the text through unchanged (no fence to strip), which is not
the isolated substring the Editing Agent parser extracts. -/
theorem fence_clean_is_not_bracket_isolation :
    fenceClean proseWrapped = proseWrapped ∧
    editingIsolate proseWrapped = some bareJson ∧
    proseWrapped ≠ bareJson := by
  decide

/-- Claim C2 (amended): for the Editing Agent parser, a reply made of a
brace-delimited body wrapped in leading text containing no opening brace
and trailing text containing no closing brace is isolated to exactly the
bare body, so parsing it yields the same object as parsing the bare JSON. -/
theorem editing_isolates_wrapped_json (pre mid post : List Char)
    (hpre : '{' ∉ pre) (hpost : '}' ∉ post) :
    editingIsolate (pre ++ ('{' :: (mid ++ ['}'])) ++ post)
      = some ('{' :: (mid ++ ['}'])) := by
  rw [List.append_assoc]
  have hp : ∀ c ∈ pre, (decide (c = '{')) = false := by
    intro c hc
    simp only [decide_eq_false_iff_not]
    exact fun h => hpre (h ▸ hc)
  have hq : ∀ c ∈ post.reverse, (decide (c = '}')) = false := by
    intro c hc
    simp only [decide_eq_false_iff_not]
    exact fun h => hpost (h ▸ (List.mem_reverse.mp hc))
  have h1 : firstIdx (· = '{') (pre ++ (('{' :: (mid ++ ['}'])) ++ post))
      = some pre.length := by
    rw [firstIdx_append _ _ _ hp]
    simp [firstIdx]
  have hrev : (pre ++ (('{' :: (mid ++ ['}'])) ++ post)).reverse
      = post.reverse ++ (('}' :: (mid.reverse ++ ['{'])) ++ pre.reverse) := by
    simp
  have h2 : firstIdx (· = '}') (pre ++ (('{' :: (mid ++ ['}'])) ++ post)).reverse
      = some post.length := by
    rw [hrev, firstIdx_append _ _ _ hq]
    simp [firstIdx]
  have hlen : (pre ++ (('{' :: (mid ++ ['}'])) ++ post)).length
      = pre.length + mid.length + 2 + post.length := by
    simp [List.length_append]
    omega
  have h3 : lastIdx (· = '}') (pre ++ (('{' :: (mid ++ ['}'])) ++ post))
      = some (pre.length + mid.length + 1) := by
    unfold lastIdx
    rw [h2, hlen]
    simp
  rw [editingIsolate_eq_of_found _ _ _ h1 h3]
  have hmin : min pre.length (pre.length + mid.length + 1 + 1) = pre.length := by omega
  have hmax : max pre.length (pre.length + mid.length + 1 + 1)
      = pre.length + mid.length + 2 := by omega
  unfold jsSubstring
  rw [hmin, hmax]
  rw [← List.append_assoc]
  have htake : ((pre ++ ('{' :: (mid ++ ['}']))) ++ post).take
      (pre.length + mid.length + 2) = pre ++ ('{' :: (mid ++ ['}'])) := by
    refine List.take_left' ?_
    simp only [List.length_append, List.length_cons, List.length_nil]
    omega
  rw [htake, List.drop_left]

/-- Claim C2 (amended, witness): the isolation theorem applied to a
concrete prose-wrapped reply. -/
theorem editing_isolates_wrapped_json_witness :
    editingIsolate (['S', 'u', 'r', 'e', '!', ' ']
        ++ ('{' :: (['"', 'a', '"', ':', '1'] ++ ['}'])) ++ [' ', 'o', 'k'])
      = some ('{' :: (['"', 'a', '"', ':', '1'] ++ ['}'])) :=
  editing_isolates_wrapped_json ['S', 'u', 'r', 'e', '!', ' ']
    ['"', 'a', '"', ':', '1'] [' ', 'o', 'k'] (by decide) (by decide)

/-- Claim C3: when the onboarding generation-or-parse step fails on a
non-null context, the response is AWAITING_INPUT with the apology speech,
a null ui, and the incoming context returned entirely unmodified. -/
theorem onboarding_failure_preserves_context (now : Nat) (prompt : String)
    (ctx : ConversationContext) :
    (onboardingExecute now prompt (some ctx) none).context = ctx ∧
    (onboardingExecute now prompt (some ctx) none).status = .AWAITING_INPUT ∧
    (onboardingExecute now prompt (some ctx) none).speech = some onboardingApology ∧
    (onboardingExecute now prompt (some ctx) none).ui = none :=
  ⟨rfl, rfl, rfl, rfl⟩

/-- Claim C4: a successful onboarding turn whose parsed reply carries
next_state FINALIZING yields status PROCESSING, a DELEGATE action, and a
returned context whose goal is generate_landing_page. -/
theorem onboarding_finalizing_delegates (now : Nat) (prompt speech : String)
    (ui : Option Ui) (data : Info) (ctx : ConversationContext) :
    (onboardingExecute now prompt (some ctx)
        (some ⟨speech, ui, data, .FINALIZING⟩)).status = .PROCESSING ∧
    (onboardingExecute now prompt (some ctx)
        (some ⟨speech, ui, data, .FINALIZING⟩)).action = some .DELEGATE ∧
    (onboardingExecute now prompt (some ctx)
        (some ⟨speech, ui, data, .FINALIZING⟩)).context.goal
      = some "generate_landing_page" := by
  refine ⟨?_, ?_, ?_⟩ <;> simp [onboardingExecute, generateCompletionResponse]

/-- Claim C5: when the editing generation, parsing or validation step
fails, the returned history is the input history extended by exactly the
user prompt and the fixed apology, the status is AWAITING_INPUT with a
null ui, and the goal is unchanged. -/
theorem editing_failure_appends_and_keeps_goal (executionId prompt : String)
    (ctx : ConversationContext) (currentCode : GeneratedCode)
    (llm : Option JsCodeObj)
    (hfail : llm = none ∨ ∃ g, llm = some g ∧ editingValid g = false) :
    (editingExecute executionId prompt ctx currentCode llm).context.history
      = ctx.history ++ [("user", prompt), ("agent", editingApology)] ∧
    (editingExecute executionId prompt ctx currentCode llm).status = .AWAITING_INPUT ∧
    (editingExecute executionId prompt ctx currentCode llm).ui = none ∧
    (editingExecute executionId prompt ctx currentCode llm).context.goal = ctx.goal := by
  rcases hfail with h | ⟨g, hg, hv⟩
  · subst h
    exact ⟨rfl, rfl, rfl, rfl⟩
  · subst hg
    simp [editingExecute, hv, editingError]

/-- Claim C5 (witness): the editing failure contract at a concrete failed
generation. -/
theorem editing_failure_witness :
    (editingExecute "e1" "make the header blue" sampleCtx sampleCode none).context.history
      = sampleCtx.history ++ [("user", "make the header blue"), ("agent", editingApology)] ∧
    (editingExecute "e1" "make the header blue" sampleCtx sampleCode none).status
      = .AWAITING_INPUT ∧
    (editingExecute "e1" "make the header blue" sampleCtx sampleCode none).ui = none ∧
    (editingExecute "e1" "make the header blue" sampleCtx sampleCode none).context.goal
      = sampleCtx.goal :=
  editing_failure_appends_and_keeps_goal "e1" "make the header blue" sampleCtx
    sampleCode none (Or.inl rfl)

/-- Claim C6: when the code-generation generation, parsing or validation
step fails, the response has status ERROR, a BUTTON_GROUP ui with exactly
one Retry Generation button, and a returned context whose goal is reset
to onboard_user. -/
theorem codegen_failure_retry_button (now : Nat) (ctx : ConversationContext)
    (llm : Option JsCodeObj)
    (hfail : llm = none ∨ ∃ g, llm = some g ∧ codeGenValid g = false) :
    (codeGenExecute now ctx llm).status = .ERROR ∧
    (codeGenExecute now ctx llm).ui
      = some (.BUTTON_GROUP [("Retry Generation", "retry_generation")]) ∧
    (codeGenExecute now ctx llm).context.goal = some "onboard_user" := by
  rcases hfail with h | ⟨g, hg, hv⟩
  · subst h
    exact ⟨rfl, rfl, rfl⟩
  · subst hg
    simp [codeGenExecute, hv, codeGenError]

/-- Claim C6 (witness): the code-generation failure contract at a concrete
failed generation. -/
theorem codegen_failure_witness :
    (codeGenExecute 7 sampleBrief none).status = .ERROR ∧
    (codeGenExecute 7 sampleBrief none).ui
      = some (.BUTTON_GROUP [("Retry Generation", "retry_generation")]) ∧
    (codeGenExecute 7 sampleBrief none).context.goal = some "onboard_user" :=
  codegen_failure_retry_button 7 sampleBrief none (Or.inl rfl)

/-- Claim C7: a turn started with a null context deterministically yields
onboarding_state GREETING, goal onboard_user and a TEXT_INPUT affordance,
independently of the generative-model outcome. -/
theorem onboarding_turn0_deterministic (now : Nat) (prompt : String)
    (llm llm2 : Option OnbLlmResponse) :
    (onboardingExecute now prompt none llm).context.onboarding_state
      = some .GREETING ∧
    (onboardingExecute now prompt none llm).context.goal = some "onboard_user" ∧
    (∃ title placeholder emoji buttonText,
      (onboardingExecute now prompt none llm).ui
        = some (.TEXT_INPUT title placeholder emoji buttonText)) ∧
    onboardingExecute now prompt none llm = onboardingExecute now prompt none llm2 :=
  ⟨rfl, rfl, ⟨_, _, _, _, rfl⟩, rfl⟩

/-- Claim C8: with goal edit_code and no artifact supplied, the router
returns the internal-error result for the missing-artifact throw without
invoking any agent (the result is a constant, independent of every
generation outcome parameter). -/
theorem router_missing_artifact (now : Nat) (executionId prompt : String)
    (c : ConversationContext) (onbLlm : Option OnbLlmResponse)
    (codeLlm editLlm : Option JsCodeObj) (h : c.goal = some "edit_code") :
    route now executionId prompt (some c) none onbLlm codeLlm editLlm
      = .internalError .missingArtifact := by
  simp [route, h]

/-- Claim C8 (witness): the missing-artifact path at a concrete edit_code
context. -/
theorem router_missing_artifact_witness :
    route 0 "e1" "make the header blue" (some sampleCtx) none none none none
      = .internalError .missingArtifact :=
  router_missing_artifact 0 "e1" "make the header blue" sampleCtx none none none rfl

/-- Claim C9: history is append-only: for every agent operation on a
non-null input context, the returned history is the input history
extended by some (possibly empty) suffix. -/
theorem history_append_only (now : Nat) (executionId prompt : String)
    (ctx : ConversationContext) (currentCode : GeneratedCode)
    (onbLlm : Option OnbLlmResponse) (codeLlm editLlm : Option JsCodeObj) :
    (∃ t, (onboardingExecute now prompt (some ctx) onbLlm).context.history
      = ctx.history ++ t) ∧
    (∃ t, (codeGenExecute now ctx codeLlm).context.history = ctx.history ++ t) ∧
    (∃ t, (editingExecute executionId prompt ctx currentCode editLlm).context.history
      = ctx.history ++ t) := by
  refine ⟨?_, ?_, ?_⟩
  · cases onbLlm with
    | none => exact ⟨[], (List.append_nil _).symm⟩
    | some r =>
      by_cases h : r.next_state = .FINALIZING
      · refine ⟨[("user", prompt), ("agent", r.speech), ("agent", onboardingFinalSpeech)], ?_⟩
        simp [onboardingExecute, h, generateCompletionResponse]
      · refine ⟨[("user", prompt), ("agent", r.speech)], ?_⟩
        simp [onboardingExecute, h]
  · cases codeLlm with
    | none => exact ⟨[], (List.append_nil _).symm⟩
    | some g =>
      by_cases h : codeGenValid g
      · exact ⟨[], by simp [codeGenExecute, h]⟩
      · exact ⟨[], by simp [codeGenExecute, h, codeGenError]⟩
  · cases editLlm with
    | none => exact ⟨[("user", prompt), ("agent", editingApology)], rfl⟩
    | some g =>
      by_cases h : editingValid g
      · exact ⟨[("user", prompt), ("agent", editingConfirmSpeech)], by
          simp [editingExecute, h]⟩
      · exact ⟨[("user", prompt), ("agent", editingApology)], by
          simp [editingExecute, h, editingError]⟩

/-- Claim C10: the Code Generation Agent only changes the goal field: on
every input the returned history, collected_info and onboarding_state are
those of the input, and the goal is completed on the success path and
onboard_user on every failure path. -/
theorem codegen_only_changes_goal (now : Nat) (ctx : ConversationContext)
    (llm : Option JsCodeObj) :
    (codeGenExecute now ctx llm).context.history = ctx.history ∧
    (codeGenExecute now ctx llm).context.collected_info = ctx.collected_info ∧
    (codeGenExecute now ctx llm).context.onboarding_state = ctx.onboarding_state ∧
    (codeGenExecute now ctx llm).context.goal
      = some (match llm with
              | some g => if codeGenValid g then "completed" else "onboard_user"
              | none => "onboard_user") := by
  cases llm with
  | none => exact ⟨rfl, rfl, rfl, rfl⟩
  | some g =>
    by_cases h : codeGenValid g <;>
      simp [codeGenExecute, codeGenError, h]

end Airlane
